import Mathlib

/-!
Verification development for the lead-scraper backend (server.js).
The JavaScript code is shallowly embedded: JS objects become structures,
`undefined`/`null`-able fields become `Option`, JS string truthiness
(`""` is falsy) is modelled explicitly, and the outcomes of external
network calls (Google Places pages, place-details lookups, the two AI
adapters' HTTP+parse pipelines) are taken as explicit inputs.
Randomness (`Math.random()`) is modelled by a stream `rand : Nat → Nat`
of pre-drawn values, each call site consuming its own index, with the
JS scaling (`Math.floor(Math.random()*k)+b`) rendered as `rand i % k + b`.
-/

/-- Truthiness of a JS string-or-undefined value: `undefined`/`null` and
the empty string are falsy; every other string is truthy. -/
def truthyO : Option String → Bool
  | none => false
  | some s => !(s == "")

/-- JS `a || b` on two string-or-undefined values. -/
def jsOr2 (a b : Option String) : Option String :=
  if truthyO a then a else b

/-- JS `a || c` where the last operand is a plain string: returns the
string value of `a` when truthy, else `c`. -/
def jsOrVal (a : Option String) (c : String) : String :=
  match a with
  | some s => if s == "" then c else s
  | none => c

/-- JS string interpolation of a possibly-undefined value: `undefined`
prints as the literal text "undefined". -/
def jsStr : Option String → String
  | none => "undefined"
  | some s => s

/-- JS `s || 'N/A'` for a plain string. -/
def orNA (s : String) : String := if s == "" then "N/A" else s

/-- JS `x || null` on a number: `0` is falsy and collapses to `null`
(this is what `details.geometry?.location?.lat || null` does). -/
def jsOrNullQ (x : Option ℚ) : Option ℚ :=
  match x with
  | some v => if v = 0 then none else some v
  | none => none

/-- Object-spread override for an optional field: a key present on the
spread object (even with a falsy value) overrides, an absent key keeps
the previous value. -/
def keyOr (r fallback : Option String) : Option String :=
  match r with
  | some s => some s
  | none => fallback

/-- Object-spread override for an optional numeric field. -/
def keyOrNat (r fallback : Option Nat) : Option Nat :=
  match r with
  | some v => some v
  | none => fallback

/-- Replacement of each maximal whitespace run by a fixed separator,
character by character (the Bool records whether the previous character
was part of a whitespace run). -/
def replWs (sep : String) : List Char → Bool → List Char
  | [], _ => []
  | c :: rest, prevWs =>
    if c.isWhitespace then
      (if prevWs then [] else sep.data) ++ replWs sep rest true
    else c :: replWs sep rest false

/-- JS `s.toLowerCase().replace(/\s+/g, '-')`. -/
def lowerDash (s : String) : String :=
  String.mk (replWs "-" (s.data.map Char.toLower) false)

/-- JS `s.toLowerCase().replace(/\s+/g, '')`. -/
def lowerNoSpace (s : String) : String :=
  String.mk (replWs "" (s.data.map Char.toLower) false)

/-- JS `s.trim()`: strips whitespace from both ends. -/
def jsTrim (s : String) : String :=
  String.mk (((s.data.dropWhile Char.isWhitespace).reverse.dropWhile Char.isWhitespace).reverse)

/-- The central Lead record (server.js builds these as plain JS objects;
fields that a given code path may leave `undefined` are `Option`).
The opaque numeric `id` (`Date.now() + Math.random()`) is not modelled. -/
structure Lead where
  companyName : String := ""
  phone : String := ""
  address : String := ""
  zipcode : String := ""
  city : String := ""
  state : String := ""
  country : String := ""
  industry : String := ""
  website : String := ""
  rating : String := ""
  reviewCount : Nat := 0
  latitude : Option ℚ := none
  longitude : Option ℚ := none
  placeId : Option String := none
  types : List String := []
  source : String := ""
  ownerName : Option String := none
  employeeCount : Option String := none
  revenue : Option String := none
  businessDetails : Option String := none
  confidence : Option Nat := none
  verified : Bool := false
  aiConfidence : Option Nat := none
  aiSource : Option String := none
  claudeConfidence : Option Nat := none
  chatGPTConfidence : Option Nat := none
  linkedin : Option String := none
  facebook : Option String := none
  deriving DecidableEq

/-- The structured analysis either AI adapter parses out of the model's
JSON reply (keys: ownerName, industry, employeeCount, revenue,
businessDetails, confidence; `none` = key absent from the JSON). The
prompt requests exactly these keys, so a parsed payload is modelled as
carrying no others; `source` is the label the adapter itself prepends. -/
structure AnalysisResult where
  source : String := ""
  ownerName : Option String := none
  industry : Option String := none
  employeeCount : Option String := none
  revenue : Option String := none
  businessDetails : Option String := none
  confidence : Option Nat := none
  deriving DecidableEq

/-- Outcome of one adapter's network + JSON-extraction pipeline:
`ok r` means the HTTP call succeeded and a JSON object was parsed out
of the reply; `failure` collapses every path the adapter's `catch`
swallows (thrown network error, non-2xx, timeout, JSON parse failure). -/
inductive CallOutcome where
  | ok (r : AnalysisResult)
  | failure (msg : String)
  deriving DecidableEq

/-- verifyWithClaude (server.js lines 360-417): short-circuits to null on
an unconfigured or placeholder key, otherwise labels the parsed analysis
with source "Claude"; any caught error becomes null. -/
def verifyWithClaude (key : Option String) (outcome : CallOutcome) : Option AnalysisResult :=
  if key = none ∨ key = some "" ∨ key = some "your_anthropic_claude_api_key_here" then none
  else
    match outcome with
    | .ok r => some { r with source := "Claude" }
    | .failure _ => none

/-- verifyWithChatGPT (server.js lines 300-357): same shape as the Claude
adapter with the OpenAI placeholder key and source "ChatGPT". -/
def verifyWithChatGPT (key : Option String) (outcome : CallOutcome) : Option AnalysisResult :=
  if key = none ∨ key = some "" ∨ key = some "your_openai_api_key_here" then none
  else
    match outcome with
    | .ok r => some { r with source := "ChatGPT" }
    | .failure _ => none

/-- The Claude result variable inside verifyLeadWithAI (lines 423-429):
stays null unless preferredAI is "both" or "claude". -/
def claudeResultOf (preferredAI : String) (key : Option String) (outcome : CallOutcome) :
    Option AnalysisResult :=
  if preferredAI = "both" ∨ preferredAI = "claude" then verifyWithClaude key outcome else none

/-- The ChatGPT result variable inside verifyLeadWithAI (lines 431-433). -/
def chatGPTResultOf (preferredAI : String) (key : Option String) (outcome : CallOutcome) :
    Option AnalysisResult :=
  if preferredAI = "both" ∨ preferredAI = "chatgpt" then verifyWithChatGPT key outcome else none

def mockNames : List String :=
  ["John Smith", "Jane Doe", "Mike Johnson", "Sarah Wilson", "David Brown"]

def mockIndustries : List String :=
  ["Technology", "Healthcare", "Finance", "Retail", "Manufacturing"]

/-- The mock-verification branch of verifyLeadWithAI (lines 436-453),
taken when both AI result variables are null. -/
def mockVerify (lead : Lead) (rand : ℕ → ℕ) : Lead :=
  { lead with
    verified := true
    aiConfidence := some (rand 0 % 20 + 80)
    ownerName := jsOr2 lead.ownerName (some (mockNames.getD (rand 1 % 5) ""))
    industry := if lead.industry == "" then mockIndustries.getD (rand 2 % 5) "" else lead.industry
    employeeCount := some (toString (rand 3 % 500 + 10) ++ "-" ++ toString (rand 4 % 500 + 510))
    revenue := some ("$" ++ toString (rand 5 % 10 + 1) ++ "M - $" ++ toString (rand 6 % 10 + 11) ++ "M")
    businessDetails := some "Mock verification - Configure API keys for real AI verification"
    aiSource := some "Mock Data"
    linkedin := some ("linkedin.com/company/" ++ lowerDash lead.companyName)
    facebook := if rand 7 % 2 = 0 then some ("facebook.com/" ++ lowerNoSpace lead.companyName) else none }

/-- Object spread `{...finalResult, ...aiResult}` in the single-adapter
branches (lines 472-488): every key carried by the parsed analysis
overrides the corresponding lead field. -/
def spreadAnalysis (lead : Lead) (r : AnalysisResult) : Lead :=
  { lead with
    source := r.source
    ownerName := keyOr r.ownerName lead.ownerName
    industry := match r.industry with | some s => s | none => lead.industry
    employeeCount := keyOr r.employeeCount lead.employeeCount
    revenue := keyOr r.revenue lead.revenue
    businessDetails := keyOr r.businessDetails lead.businessDetails
    confidence := keyOrNat r.confidence lead.confidence }

/-- Social links attached after the non-mock branches (lines 491-494). -/
def withSocial (l : Lead) : Lead :=
  { l with
    linkedin := some ("linkedin.com/company/" ++ lowerDash l.companyName)
    facebook := some ("facebook.com/" ++ lowerNoSpace l.companyName) }

/-- Result combination of verifyLeadWithAI (lines 436-496) as a function
of the two AI result variables. -/
def mergeAIResults (lead : Lead) (claudeResult chatGPTResult : Option AnalysisResult)
    (rand : ℕ → ℕ) : Lead :=
  match claudeResult, chatGPTResult with
  | none, none => mockVerify lead rand
  | some c, some g =>
      withSocial
        { lead with
          verified := true
          ownerName := jsOr2 c.ownerName (jsOr2 g.ownerName lead.ownerName)
          industry := jsOrVal c.industry (jsOrVal g.industry lead.industry)
          employeeCount := jsOr2 c.employeeCount g.employeeCount
          revenue := jsOr2 c.revenue g.revenue
          businessDetails := some ("Claude (Primary): " ++ jsStr c.businessDetails ++
            "\nChatGPT (Secondary): " ++ jsStr g.businessDetails)
          aiConfidence := some 100
          aiSource := some "Claude (Primary) + ChatGPT (Secondary)"
          claudeConfidence := c.confidence
          chatGPTConfidence := g.confidence }
  | some c, none =>
      withSocial
        { spreadAnalysis { lead with verified := true } c with
          aiConfidence := some 50
          aiSource := some "Claude (Primary)" }
  | none, some g =>
      withSocial
        { spreadAnalysis { lead with verified := true } g with
          aiConfidence := some 50
          aiSource := some "ChatGPT (Fallback)" }

/-- verifyLeadWithAI (server.js lines 420-497). The function is total:
it always returns a Lead and never throws. -/
def verifyLeadWithAI (lead : Lead) (preferredAI : String)
    (claudeKey gptKey : Option String) (claudeOutcome gptOutcome : CallOutcome)
    (rand : ℕ → ℕ) : Lead :=
  mergeAIResults lead (claudeResultOf preferredAI claudeKey claudeOutcome)
    (chatGPTResultOf preferredAI gptKey gptOutcome) rand

/-- The hand-typed fields a caller may post to /api/enrich-manual
(an omitted field is the empty string, JS-falsy like `undefined`). -/
structure ManualData where
  companyName : String := ""
  phone : String := ""
  address : String := ""
  zipcode : String := ""
  city : String := ""
  country : String := ""
  industry : String := ""
  ownerName : String := ""
  deriving DecidableEq

/-- JS `manual?.trim() || fallback` for a plain string field. -/
def jsOrTrim (m fallback : String) : String :=
  if jsTrim m == "" then fallback else jsTrim m

/-- JS `manual?.trim() || fallback` where the fallback field may be
undefined on the scraped lead. -/
def jsOrTrimOpt (m : String) (fallback : Option String) : Option String :=
  if jsTrim m == "" then fallback else some (jsTrim m)

/-- The merge of manual data over the discovery best-match inside
/api/enrich-manual (server.js lines 962-978): the manual value wins for
the eight suppliable fields when non-empty after trimming; website,
rating and reviewCount always come from the best match. -/
def enrichManualMerge (m : ManualData) (bestMatch : Lead) : Lead :=
  { bestMatch with
    companyName := jsOrTrim m.companyName bestMatch.companyName
    phone := jsOrTrim m.phone bestMatch.phone
    address := jsOrTrim m.address bestMatch.address
    zipcode := jsOrTrim m.zipcode bestMatch.zipcode
    city := jsOrTrim m.city bestMatch.city
    country := jsOrTrim m.country bestMatch.country
    industry := jsOrTrim m.industry bestMatch.industry
    ownerName := jsOrTrimOpt m.ownerName bestMatch.ownerName }

/-- The /api/enrich-manual flow after a discovery best-match was found
(server.js lines 962-997): merge manual data over the best match, then
verify with both AI adapters. The enrichmentSource / searchMethod
metadata stamps are not modelled (no claim touches them). -/
def enrichManual (m : ManualData) (bestMatch : Lead)
    (claudeKey gptKey : Option String) (claudeOutcome gptOutcome : CallOutcome)
    (rand : ℕ → ℕ) : Lead :=
  verifyLeadWithAI (enrichManualMerge m bestMatch) "both" claudeKey gptKey
    claudeOutcome gptOutcome rand

/-- A latitude/longitude pair (JS numbers modelled as rationals). -/
structure Coord where
  lat : ℚ
  lng : ℚ
  deriving DecidableEq

/-- The SearchArea shapes dispatched on by `area.type` in server.js;
`other` stands for any unrecognized type string. -/
inductive Area where
  | circle (center : Coord) (radius : Option ℚ)
  | rectangle (north south east west : ℚ)
  | polygon (coordinates : List Coord)
  | polyline (coordinates : List Coord)
  | multipolygon (polygons : List (List Coord))
  | other (ty : String)
  deriving DecidableEq

/-- Sum of latitudes, as accumulated by `coords.reduce((sum, c) => sum + c.lat, 0)`. -/
def sumLat (cs : List Coord) : ℚ := (cs.map Coord.lat).sum

/-- Sum of longitudes. -/
def sumLng (cs : List Coord) : ℚ := (cs.map Coord.lng).sum

/-- calculateAreaCenter (server.js lines 542-574). The multipolygon
branch accumulates over every point of every polygon, which equals the
accumulation over the flattened vertex list. -/
def calculateAreaCenter : Area → Option Coord
  | .circle c _ => some c
  | .rectangle n s e w => some ⟨(n + s) / 2, (e + w) / 2⟩
  | .polygon cs => some ⟨sumLat cs / (cs.length : ℚ), sumLng cs / (cs.length : ℚ)⟩
  | .polyline cs => some ⟨sumLat cs / (cs.length : ℚ), sumLng cs / (cs.length : ℚ)⟩
  | .multipolygon ps =>
      some ⟨sumLat ps.flatten / ((ps.flatten).length : ℚ), sumLng ps.flatten / ((ps.flatten).length : ℚ)⟩
  | .other _ => none

/-- The per-polygon quota of /api/scrape-area (server.js line 650):
`Math.ceil(maxLeads / area.polygons.length)`. -/
def leadsPerPolygon (maxLeads nPolys : ℕ) : ℕ :=
  Nat.ceil ((maxLeads : ℚ) / (nPolys : ℚ))

/-- A raw text-search result; only its place_id is consumed downstream. -/
structure Place where
  place_id : String
  deriving DecidableEq

/-- One page of the Places text-search response, as inspected by the
pagination loop: the application-level status, the results array, and
the optional continuation token. -/
structure PageResponse where
  status : String
  results : List Place
  nextPageToken : Option String
  deriving DecidableEq

/-- True when the page status is neither OK nor ZERO_RESULTS
(server.js line 154). -/
def badStatus (r : PageResponse) : Bool :=
  !(r.status == "OK") && !(r.status == "ZERO_RESULTS")

/-- Outcome of one text-search page request. Unlike the per-candidate
details calls and the AI adapters, the pagination loop has no local
catch around its `await axios.get` (server.js line 150): `thrown`
models an axios rejection (network error, timeout, or non-2xx HTTP
status), which propagates to the outer catch at line 293 and aborts
the whole call. `response` is an HTTP 200 whose parsed body the loop
inspects. -/
inductive PageOutcome where
  | response (r : PageResponse)
  | thrown (msg : String)
  deriving DecidableEq

/-- True when the page request returned a body rather than throwing. -/
def isResponse : PageOutcome → Bool
  | .response _ => true
  | .thrown _ => false

/-- Externally visible actions of the pagination loop: an HTTP page
request (carrying the pagetoken it consumes, if any) and a sleep of the
given number of milliseconds. -/
inductive Event where
  | request (pagetoken : Option String)
  | delayEv (ms : Nat)
  deriving DecidableEq

/-- Google's hard page cap used by the loop (server.js line 135). -/
def maxPages : ℕ := 3

/-- The do/while pagination loop of scrapeGoogleMaps (server.js lines
131-193), one recursive step per iteration. `provider n` is the outcome
of the n-th page request; a thrown request is not caught inside the
loop, so it ends the run with the error that the outer catch will
rewrap. `fuel` bounds the recursion (the loop itself stops after
`maxPages` pages, so `fuel = maxPages` is exact). Returns the emitted
event trace and either the collected places or the thrown error. -/
def fetchPages (provider : ℕ → PageOutcome) (maxLeads : ℕ) :
    ℕ → ℕ → Option String → List Place → List Event × Except String (List Place)
  | 0, _, _, allPlaces => ([], Except.ok allPlaces)
  | fuel + 1, pageIdx, token, allPlaces =>
    let ev := Event.request token
    match provider pageIdx with
    | .thrown msg => ([ev], Except.error msg)
    | .response resp =>
      if badStatus resp then
        if allPlaces.isEmpty then
          ([ev], Except.error ("Google Places API error: " ++ resp.status))
        else ([ev], Except.ok allPlaces)
      else if resp.results.isEmpty then ([ev], Except.ok allPlaces)
      else
        let acc2 := allPlaces ++ resp.results
        if maxLeads ≤ acc2.length then ([ev], Except.ok acc2)
        else if maxPages ≤ pageIdx + 1 then ([ev], Except.ok acc2)
        else
          match resp.nextPageToken with
          | none => ([ev], Except.ok acc2)
          | some t =>
            let next := fetchPages provider maxLeads fuel (pageIdx + 1) (some t) acc2
            (ev :: Event.delayEv 2000 :: next.1, next.2)

/-- The event trace produced by one scrapeGoogleMaps pagination run. -/
def scrapeTrace (provider : ℕ → PageOutcome) (maxLeads : ℕ) : List Event :=
  (fetchPages provider maxLeads maxPages 0 none []).1

/-- Number of page requests in a trace. -/
def countRequests : List Event → ℕ
  | [] => 0
  | Event.request _ :: rest => countRequests rest + 1
  | Event.delayEv _ :: rest => countRequests rest

/-- Checks that every request consuming a pagetoken is immediately
preceded by a delay of at least 2000 ms. -/
def delayedTokens : List Event → Bool
  | [] => true
  | Event.request none :: rest => delayedTokens rest
  | Event.request (some _) :: _ => false
  | Event.delayEv d :: Event.request (some _) :: rest => decide (2000 ≤ d) && delayedTokens rest
  | Event.delayEv _ :: rest => delayedTokens rest

/-- One entry of a Places details response's address_components array. -/
structure AddressComponent where
  long_name : String
  short_name : String
  types : List String
  deriving DecidableEq

/-- The fields of a Places details response consumed by the lead
construction (rating, a JS number, is modelled by its rendered string). -/
structure PlaceDetails where
  name : String := ""
  formatted_address : Option String := none
  formatted_phone_number : Option String := none
  international_phone_number : Option String := none
  website : Option String := none
  rating : Option String := none
  user_ratings_total : Option Nat := none
  types : List String := []
  address_components : List AddressComponent := []
  lat : Option ℚ := none
  lng : Option ℚ := none
  deriving DecidableEq

/-- The forEach over address_components that keeps the long_name of the
last component carrying the tag (server.js lines 227-240). -/
def extractLong (tag : String) (comps : List AddressComponent) : String :=
  comps.foldl (fun acc c => if tag ∈ c.types then c.long_name else acc) ""

/-- Same extraction keeping the short_name (used for the state field). -/
def extractShort (tag : String) (comps : List AddressComponent) : String :=
  comps.foldl (fun acc c => if tag ∈ c.types then c.short_name else acc) ""

/-- Model of `tag.replace(/_/g, ' ').replace(/\b\w/g, c => c.toUpperCase())`
on an underscore-separated category tag. -/
def titleCaseTag (s : String) : String :=
  String.intercalate " " ((s.split (fun c => c = '_')).map String.capitalize)

/-- The ordered category-to-industry mapping (server.js lines 243-255,
duplicated at lines 1031-1043). -/
def industryFromTypes (types : List String) : String :=
  if "restaurant" ∈ types then "Restaurant"
  else if "store" ∈ types ∨ "retail" ∈ types then "Retail"
  else if "hospital" ∈ types ∨ "doctor" ∈ types then "Healthcare"
  else if "lawyer" ∈ types then "Legal Services"
  else if "real_estate_agency" ∈ types then "Real Estate"
  else if "cafe" ∈ types ∨ "bakery" ∈ types then "Food & Beverage"
  else if "gym" ∈ types then "Fitness"
  else if "beauty_salon" ∈ types ∨ "spa" ∈ types then "Beauty & Wellness"
  else
    match types with
    | [] => "Business"
    | t :: _ => titleCaseTag t

/-- The lead built from one place-details response (server.js lines
257-275; the identical helper convertPlaceDetailsToLead is at lines
1009-1064). -/
def placeDetailsToLead (placeId : String) (d : PlaceDetails) : Lead :=
  { companyName := d.name
    phone := jsOrVal d.formatted_phone_number (jsOrVal d.international_phone_number "N/A")
    address := jsOrVal d.formatted_address "N/A"
    zipcode := orNA (extractLong "postal_code" d.address_components)
    city := orNA (extractLong "locality" d.address_components)
    country := orNA (extractLong "country" d.address_components)
    state := extractShort "administrative_area_level_1" d.address_components
    industry := industryFromTypes d.types
    website := jsOrVal d.website "N/A"
    rating := jsOrVal d.rating "N/A"
    reviewCount := d.user_ratings_total.getD 0
    latitude := jsOrNullQ d.lat
    longitude := jsOrNullQ d.lng
    placeId := some placeId
    types := d.types
    source := "Google Places API" }

/-- The per-place details phase (server.js lines 204-288): each place's
details lookup may fail (thrown error or non-OK status, both modelled
by `none`); a failure is swallowed and the batch continues. -/
def processPlaces (detailProvider : String → Option PlaceDetails) (places : List Place) :
    List Lead :=
  places.filterMap (fun p => (detailProvider p.place_id).map (placeDetailsToLead p.place_id))

/-- True on a thrown (error) outcome. -/
def isErr {α : Type} : Except String α → Bool
  | .error _ => true
  | .ok _ => false

/-- scrapeGoogleMaps (server.js lines 65-297): credential check, the
pagination loop, then the details phase over the first maxLeads places.
The outer catch rewraps any thrown error. -/
def scrapeGoogleMaps (apiKey : Option String) (provider : ℕ → PageOutcome)
    (detailProvider : String → Option PlaceDetails) (maxLeads : ℕ) :
    Except String (List Lead) :=
  if apiKey = none ∨ apiKey = some "" then
    Except.error
      "Failed to fetch data from Google Places API: Google Places API key not configured"
  else
    match (fetchPages provider maxLeads maxPages 0 none []).2 with
    | .error e => Except.error ("Failed to fetch data from Google Places API: " ++ e)
    | .ok allPlaces =>
        if allPlaces.isEmpty then Except.ok []
        else Except.ok (processPlaces detailProvider (allPlaces.take maxLeads))

/-- The dedup loop of /api/scrape-area (server.js lines 699-707): keeps
a result only when its placeId is truthy and unseen, threading the set
of seen placeIds. -/
def dedupGo (seen : List String) : List Lead → List Lead
  | [] => []
  | r :: rest =>
    match r.placeId with
    | some s => if s ≠ "" ∧ ¬ s ∈ seen then r :: dedupGo (s :: seen) rest else dedupGo seen rest
    | none => dedupGo seen rest

/-- Dedup by placeId then `slice(0, maxLeads)` (server.js lines 699-710). -/
def dedupAndLimit (rs : List Lead) (maxLeads : ℕ) : List Lead :=
  (dedupGo [] rs).take maxLeads

/-- The concatenated per-polygon search results of the multipolygon
branch (server.js lines 646-696): every polygon is searched with the
same quota `leadsPerPolygon maxLeads polys.length`; `searchPolygon`
abstracts the reverse-geocode + scrapeGoogleMaps call on one polygon. -/
def allPolygonResults (searchPolygon : List Coord → ℕ → List Lead)
    (polys : List (List Coord)) (maxLeads : ℕ) : List Lead :=
  (polys.map (fun p => searchPolygon p (leadsPerPolygon maxLeads polys.length))).flatten

/-- The full multipolygon discovery result (server.js lines 646-714):
concatenate per-polygon results, dedup by placeId, truncate to maxLeads. -/
def scrapeAreaMulti (searchPolygon : List Coord → ℕ → List Lead)
    (polys : List (List Coord)) (maxLeads : ℕ) : List Lead :=
  dedupAndLimit (allPolygonResults searchPolygon polys maxLeads) maxLeads

/-- A fixed random stream for concrete evaluations. -/
def zeroRand : ℕ → ℕ := fun _ => 0

/-- Concrete manual entry: the human supplies company and owner name. -/
def mAlice : ManualData := { companyName := "Acme", ownerName := "Alice" }

/-- Concrete discovery best match for the manual-enrichment scenario. -/
def bmSample : Lead :=
  { companyName := "Acme Corp", phone := "+1-555-0100", address := "1 Main St",
    placeId := some "pid-acme", source := "Google Places API" }

/-- Concrete parsed Claude analysis naming a different owner. -/
def resBob : AnalysisResult :=
  { ownerName := some "Bob", industry := some "Retail",
    businessDetails := some "Claude narrative", confidence := some 90 }

/-- Concrete primary analysis for the disagreeing-owners scenario. -/
def resJane : AnalysisResult :=
  { ownerName := some "Jane Doe", businessDetails := some "Primary narrative" }

/-- Concrete secondary analysis for the disagreeing-owners scenario. -/
def resJDoe : AnalysisResult :=
  { ownerName := some "J. Doe", businessDetails := some "Secondary narrative" }

/-- A plain input lead for verification scenarios. -/
def sampleLead : Lead :=
  { companyName := "Sample Co", phone := "+1-555-0101", address := "2 Side St",
    industry := "Retail", placeId := some "pid-sample" }

/-- A successful page carrying one result and a continuation token. -/
def pageOkOne : PageResponse :=
  { status := "OK", results := [⟨"p1"⟩], nextPageToken := some "tok" }

/-- A successful page carrying two results and a continuation token. -/
def pageOkTwo : PageResponse :=
  { status := "OK", results := [⟨"p1"⟩, ⟨"p2"⟩], nextPageToken := some "tok" }

/-- A page reporting an application-level quota error. -/
def pageQuotaErr : PageResponse :=
  { status := "OVER_QUERY_LIMIT", results := [], nextPageToken := none }

/-- A provider whose every page request succeeds with one result. -/
def sampleProvider : ℕ → PageOutcome :=
  fun _ => PageOutcome.response pageOkOne

/-- A provider whose first page succeeds and whose second page reports a
quota error in the response body. -/
def degradingProvider : ℕ → PageOutcome :=
  fun n => if n = 0 then PageOutcome.response pageOkTwo else PageOutcome.response pageQuotaErr

/-- A provider whose first page succeeds and whose second page request
throws (axios rejection). -/
def throwingProvider : ℕ → PageOutcome :=
  fun n => if n = 0 then PageOutcome.response pageOkOne else PageOutcome.thrown "Network Error"

/-- A details provider that fails every lookup. -/
def noDetails : String → Option PlaceDetails := fun _ => none

/-- A details provider answering every lookup with a fixed record. -/
def someDetails : String → Option PlaceDetails :=
  fun _ => some { name := "Biz", types := ["restaurant"] }

/-- Leads with distinct, shared, and missing placeIds for dedup scenarios. -/
def leadA : Lead := { companyName := "A", placeId := some "pa" }

def leadA2 : Lead := { companyName := "A-dup", placeId := some "pa" }

def leadB : Lead := { companyName := "B", placeId := some "pb" }

def leadNoPid : Lead := { companyName := "NoPid", placeId := none }

/-- A one-vertex polygon for geometry witnesses. -/
def csSample : List Coord := [⟨1, 2⟩]


/-- C5: for every positive requested total and every polygon count n >= 1,
the per-polygon quota is applied identically to every polygon (the model
passes the single value `leadsPerPolygon maxLeads polys.length` to each
search), the sum of the quotas (n of them) is at least the requested
total, and splitting 50 over 3 polygons assigns quota 17. -/
theorem quota_split :
    (∀ total n : ℕ, 0 < n → total ≤ n * leadsPerPolygon total n) ∧
    leadsPerPolygon 50 3 = 17 := by
  constructor
  · intro total n hn
    have h0 : (0 : ℚ) < (n : ℚ) := by exact_mod_cast hn
    have hc := Nat.le_ceil ((total : ℚ) / (n : ℚ))
    have h2 : (total : ℚ) ≤ (n : ℚ) * (Nat.ceil ((total : ℚ) / (n : ℚ)) : ℚ) := by
      rw [mul_comm]
      have h3 := mul_le_mul_of_nonneg_right hc (le_of_lt h0)
      calc (total : ℚ) = (total : ℚ) / (n : ℚ) * n := by field_simp
      _ ≤ (Nat.ceil ((total : ℚ) / (n : ℚ)) : ℚ) * n := h3
    exact_mod_cast h2
  · rw [leadsPerPolygon, Nat.ceil_eq_iff (by norm_num)]
    norm_num

/-- Witness for C5 at total 50 and 3 polygons. -/
theorem quota_split_witness : 50 ≤ 3 * leadsPerPolygon 50 3 :=
  quota_split.1 50 3 (by norm_num)

/-- C6: the resolved center is the stored center for a circle, the
midpoint of the bounds for a rectangle (so {north 10, south 0, east 10,
west 0} resolves to (5, 5)), the arithmetic mean of the vertices for a
polygon or polyline, for a multipolygon the same mean over the flattened
vertex list of all polygons (not polygon-weighted), and null for any
other shape type. -/
theorem center_resolution :
    (∀ c r, calculateAreaCenter (Area.circle c r) = some c) ∧
    (∀ n s e w, calculateAreaCenter (Area.rectangle n s e w) =
      some ⟨(n + s) / 2, (e + w) / 2⟩) ∧
    (calculateAreaCenter (Area.rectangle 10 0 10 0) = some ⟨5, 5⟩) ∧
    (∀ cs, cs ≠ [] → calculateAreaCenter (Area.polygon cs) =
      some ⟨sumLat cs / (cs.length : ℚ), sumLng cs / (cs.length : ℚ)⟩) ∧
    (∀ cs, calculateAreaCenter (Area.polyline cs) = calculateAreaCenter (Area.polygon cs)) ∧
    (∀ ps, calculateAreaCenter (Area.multipolygon ps) =
      calculateAreaCenter (Area.polygon ps.flatten)) ∧
    (∀ t, calculateAreaCenter (Area.other t) = none) := by
  refine ⟨fun c r => rfl, fun n s e w => rfl, ?_, fun cs _ => rfl, fun cs => rfl,
    fun ps => rfl, fun t => rfl⟩
  show some (⟨(10 + 0) / 2, (10 + 0) / 2⟩ : Coord) = some ⟨5, 5⟩
  norm_num

/-- Witness for C6 on a concrete one-vertex polygon. -/
theorem center_resolution_witness :
    calculateAreaCenter (Area.polygon csSample) =
      some ⟨sumLat csSample / (csSample.length : ℚ), sumLng csSample / (csSample.length : ℚ)⟩ :=
  center_resolution.2.2.2.1 csSample (by simp [csSample])

theorem jsOr2_of_truthy {a : Option String} (b : Option String) (h : truthyO a = true) :
    jsOr2 a b = a := by
  simp [jsOr2, h]

theorem jsOr2_of_falsy {a : Option String} (b : Option String) (h : truthyO a = false) :
    jsOr2 a b = b := by
  simp [jsOr2, h]

theorem jsOrVal_of_truthy {a : Option String} (c : String) {s : String}
    (h : a = some s) (hs : ¬ s = "") : jsOrVal a c = s := by
  subst h
  simp [jsOrVal, hs]

theorem jsOrVal_of_falsy {a : Option String} (c : String) (h : truthyO a = false) :
    jsOrVal a c = c := by
  match a, h with
  | none, _ => rfl
  | some s, h =>
      have hs : s = "" := by
        by_contra hne
        simp [truthyO, hne] at h
      subst hs
      rfl

theorem mergeAI_verified (lead : Lead) (c g : Option AnalysisResult) (rand : ℕ → ℕ) :
    (mergeAIResults lead c g rand).verified = true := by
  cases c <;> cases g <;> rfl

theorem mergeAI_keeps_identity (lead : Lead) (c g : Option AnalysisResult) (rand : ℕ → ℕ) :
    (mergeAIResults lead c g rand).companyName = lead.companyName ∧
    (mergeAIResults lead c g rand).phone = lead.phone ∧
    (mergeAIResults lead c g rand).address = lead.address ∧
    (mergeAIResults lead c g rand).zipcode = lead.zipcode ∧
    (mergeAIResults lead c g rand).city = lead.city ∧
    (mergeAIResults lead c g rand).country = lead.country := by
  cases c <;> cases g <;> exact ⟨rfl, rfl, rfl, rfl, rfl, rfl⟩

/-- C2 counterexample: with neither adapter contributing (both result
variables null), the returned lead's aiConfidence is the mock value 80
(for the zero random stream), not 0 as the claim requires. -/
theorem conf_derivation_counterexample :
    claudeResultOf "both" none (CallOutcome.failure "err") = none ∧
    chatGPTResultOf "both" none (CallOutcome.failure "err") = none ∧
    (verifyLeadWithAI sampleLead "both" none none (CallOutcome.failure "err")
      (CallOutcome.failure "err") zeroRand).aiConfidence = some 80 ∧
    ¬ (verifyLeadWithAI sampleLead "both" none none (CallOutcome.failure "err")
      (CallOutcome.failure "err") zeroRand).aiConfidence = some 0 := by
  refine ⟨rfl, rfl, rfl, by decide⟩

/-- C2 (amended): aiConfidence is 100 when both AI result variables are
non-null, 50 when exactly one is, and when neither is the mock branch
sets it to a value in the 80..99 range together with the distinct label
aiSource = "Mock Data" (never 0). -/
theorem conf_derivation : ∀ (lead : Lead) (mode : String) (ck gk : Option String)
    (co gout : CallOutcome) (rand : ℕ → ℕ),
    (∀ a b, claudeResultOf mode ck co = some a → chatGPTResultOf mode gk gout = some b →
      (verifyLeadWithAI lead mode ck gk co gout rand).aiConfidence = some 100) ∧
    (∀ a, claudeResultOf mode ck co = some a → chatGPTResultOf mode gk gout = none →
      (verifyLeadWithAI lead mode ck gk co gout rand).aiConfidence = some 50) ∧
    (∀ b, claudeResultOf mode ck co = none → chatGPTResultOf mode gk gout = some b →
      (verifyLeadWithAI lead mode ck gk co gout rand).aiConfidence = some 50) ∧
    (claudeResultOf mode ck co = none → chatGPTResultOf mode gk gout = none →
      (verifyLeadWithAI lead mode ck gk co gout rand).aiConfidence = some (rand 0 % 20 + 80) ∧
      80 ≤ rand 0 % 20 + 80 ∧ rand 0 % 20 + 80 ≤ 99 ∧
      (verifyLeadWithAI lead mode ck gk co gout rand).aiSource = some "Mock Data") := by
  intro lead mode ck gk co gout rand
  refine ⟨?_, ?_, ?_, ?_⟩
  · intro a b h1 h2
    simp [verifyLeadWithAI, h1, h2, mergeAIResults, withSocial]
  · intro a h1 h2
    simp [verifyLeadWithAI, h1, h2, mergeAIResults, withSocial]
  · intro b h1 h2
    simp [verifyLeadWithAI, h1, h2, mergeAIResults, withSocial]
  · intro h1 h2
    have hm : rand 0 % 20 < 20 := Nat.mod_lt _ (by norm_num)
    refine ⟨?_, by omega, by omega, ?_⟩ <;>
      simp [verifyLeadWithAI, h1, h2, mergeAIResults, mockVerify]

/-- Witness for C2 (amended) on the both-adapters-succeed case. -/
theorem conf_derivation_witness :
    (verifyLeadWithAI sampleLead "both" (some "key1") (some "key2")
      (CallOutcome.ok resJane) (CallOutcome.ok resJDoe) zeroRand).aiConfidence = some 100 :=
  (conf_derivation sampleLead "both" (some "key1") (some "key2")
    (CallOutcome.ok resJane) (CallOutcome.ok resJDoe) zeroRand).1 _ _ rfl rfl

/-- C3: verifyLeadWithAI is a total function (it returns a Lead on every
input, modelling that it never throws), every returned lead carries
verified = true, and when every adapter path yielded null (error, parse
failure, or unconfigured credentials) the returned lead is labeled with
the distinct mock source "Mock Data". -/
theorem resilience : ∀ (lead : Lead) (mode : String) (ck gk : Option String)
    (co gout : CallOutcome) (rand : ℕ → ℕ),
    (verifyLeadWithAI lead mode ck gk co gout rand).verified = true ∧
    (claudeResultOf mode ck co = none → chatGPTResultOf mode gk gout = none →
      (verifyLeadWithAI lead mode ck gk co gout rand).aiSource = some "Mock Data") := by
  intro lead mode ck gk co gout rand
  constructor
  · exact mergeAI_verified lead _ _ rand
  · intro h1 h2
    simp [verifyLeadWithAI, h1, h2, mergeAIResults, mockVerify]

/-- Witness for C3 with every adapter failing. -/
theorem resilience_witness :
    (verifyLeadWithAI sampleLead "both" none none (CallOutcome.failure "net down")
      (CallOutcome.failure "net down") zeroRand).verified = true ∧
    (verifyLeadWithAI sampleLead "both" none none (CallOutcome.failure "net down")
      (CallOutcome.failure "net down") zeroRand).aiSource = some "Mock Data" :=
  ⟨(resilience sampleLead "both" none none (CallOutcome.failure "net down")
      (CallOutcome.failure "net down") zeroRand).1,
   (resilience sampleLead "both" none none (CallOutcome.failure "net down")
      (CallOutcome.failure "net down") zeroRand).2 rfl rfl⟩

theorem jsOrTrim_of_ne {m : String} (b : String) (h : ¬ jsTrim m = "") :
    jsOrTrim m b = jsTrim m := by
  simp [jsOrTrim, h]

theorem jsOrTrimOpt_of_ne {m : String} (b : Option String) (h : ¬ jsTrim m = "") :
    jsOrTrimOpt m b = some (jsTrim m) := by
  simp [jsOrTrimOpt, h]

/-- C1 counterexample: the human supplies ownerName "Alice", the Claude
adapter returns ownerName "Bob", and the final lead of the manual
enrichment flow carries "Bob" - the AI value overrides the human one,
contradicting the claim that a human-supplied non-empty field always
survives regardless of what any adapter returned. -/
theorem manual_precedence_counterexample :
    jsTrim mAlice.ownerName = "Alice" ∧
    (enrichManual mAlice bmSample (some "ck") none (CallOutcome.ok resBob)
      (CallOutcome.failure "e") zeroRand).ownerName = some "Bob" ∧
    ¬ (enrichManual mAlice bmSample (some "ck") none (CallOutcome.ok resBob)
      (CallOutcome.failure "e") zeroRand).ownerName = some "Alice" := by
  refine ⟨by decide, by decide, by decide⟩

/-- C1 (amended): in the manual enrichment flow a human-supplied
non-empty value always overrides the discovery best-match at the merge
step (shown here for industry and ownerName, the two fields the AI can
later touch), and it survives all AI branches for companyName, phone,
address, zipcode, city and country; for ownerName and industry the AI
adapters' non-empty results take precedence over the human value, as
the counterexample shows. -/
theorem manual_precedence_amended : ∀ (m : ManualData) (bm : Lead)
    (ck gk : Option String) (co gout : CallOutcome) (rand : ℕ → ℕ),
    (¬ jsTrim m.companyName = "" →
      (enrichManual m bm ck gk co gout rand).companyName = jsTrim m.companyName) ∧
    (¬ jsTrim m.phone = "" →
      (enrichManual m bm ck gk co gout rand).phone = jsTrim m.phone) ∧
    (¬ jsTrim m.address = "" →
      (enrichManual m bm ck gk co gout rand).address = jsTrim m.address) ∧
    (¬ jsTrim m.zipcode = "" →
      (enrichManual m bm ck gk co gout rand).zipcode = jsTrim m.zipcode) ∧
    (¬ jsTrim m.city = "" →
      (enrichManual m bm ck gk co gout rand).city = jsTrim m.city) ∧
    (¬ jsTrim m.country = "" →
      (enrichManual m bm ck gk co gout rand).country = jsTrim m.country) ∧
    (¬ jsTrim m.industry = "" →
      (enrichManualMerge m bm).industry = jsTrim m.industry) ∧
    (¬ jsTrim m.ownerName = "" →
      (enrichManualMerge m bm).ownerName = some (jsTrim m.ownerName)) := by
  intro m bm ck gk co gout rand
  have hk := mergeAI_keeps_identity (enrichManualMerge m bm)
    (claudeResultOf "both" ck co) (chatGPTResultOf "both" gk gout) rand
  refine ⟨?_, ?_, ?_, ?_, ?_, ?_, ?_, ?_⟩
  · intro h
    rw [enrichManual, verifyLeadWithAI, hk.1, enrichManualMerge]
    exact jsOrTrim_of_ne _ h
  · intro h
    rw [enrichManual, verifyLeadWithAI, hk.2.1, enrichManualMerge]
    exact jsOrTrim_of_ne _ h
  · intro h
    rw [enrichManual, verifyLeadWithAI, hk.2.2.1, enrichManualMerge]
    exact jsOrTrim_of_ne _ h
  · intro h
    rw [enrichManual, verifyLeadWithAI, hk.2.2.2.1, enrichManualMerge]
    exact jsOrTrim_of_ne _ h
  · intro h
    rw [enrichManual, verifyLeadWithAI, hk.2.2.2.2.1, enrichManualMerge]
    exact jsOrTrim_of_ne _ h
  · intro h
    rw [enrichManual, verifyLeadWithAI, hk.2.2.2.2.2, enrichManualMerge]
    exact jsOrTrim_of_ne _ h
  · intro h
    rw [enrichManualMerge]
    exact jsOrTrim_of_ne _ h
  · intro h
    rw [enrichManualMerge]
    exact jsOrTrimOpt_of_ne _ h

/-- Witness for C1 (amended) on the concrete manual entry. -/
theorem manual_precedence_amended_witness :
    (enrichManual mAlice bmSample (some "ck") none (CallOutcome.ok resBob)
      (CallOutcome.failure "e") zeroRand).companyName = jsTrim mAlice.companyName :=
  (manual_precedence_amended mAlice bmSample (some "ck") none (CallOutcome.ok resBob)
    (CallOutcome.failure "e") zeroRand).1 (by decide)

/-- C8: when both AI result variables are non-null, each analyzed field
comes from the primary (Claude) result when that value is non-empty,
falling back to the secondary (ChatGPT) value, and businessDetails is
the concatenation of both narratives, each prefixed with its source
label. -/
theorem both_ai_merge : ∀ (lead : Lead) (mode : String) (ck gk : Option String)
    (co gout : CallOutcome) (rand : ℕ → ℕ) (a1 a2 : AnalysisResult),
    claudeResultOf mode ck co = some a1 → chatGPTResultOf mode gk gout = some a2 →
    (truthyO a1.ownerName = true →
      (verifyLeadWithAI lead mode ck gk co gout rand).ownerName = a1.ownerName) ∧
    (truthyO a1.ownerName = false → truthyO a2.ownerName = true →
      (verifyLeadWithAI lead mode ck gk co gout rand).ownerName = a2.ownerName) ∧
    (∀ s, a1.industry = some s → ¬ s = "" →
      (verifyLeadWithAI lead mode ck gk co gout rand).industry = s) ∧
    (truthyO a1.industry = false → ∀ s, a2.industry = some s → ¬ s = "" →
      (verifyLeadWithAI lead mode ck gk co gout rand).industry = s) ∧
    (truthyO a1.employeeCount = true →
      (verifyLeadWithAI lead mode ck gk co gout rand).employeeCount = a1.employeeCount) ∧
    (truthyO a1.employeeCount = false →
      (verifyLeadWithAI lead mode ck gk co gout rand).employeeCount = a2.employeeCount) ∧
    (truthyO a1.revenue = true →
      (verifyLeadWithAI lead mode ck gk co gout rand).revenue = a1.revenue) ∧
    (truthyO a1.revenue = false →
      (verifyLeadWithAI lead mode ck gk co gout rand).revenue = a2.revenue) ∧
    (∀ d1 d2, a1.businessDetails = some d1 → a2.businessDetails = some d2 →
      (verifyLeadWithAI lead mode ck gk co gout rand).businessDetails =
        some ("Claude (Primary): " ++ d1 ++ "\nChatGPT (Secondary): " ++ d2)) := by
  intro lead mode ck gk co gout rand a1 a2 h1 h2
  have hv : verifyLeadWithAI lead mode ck gk co gout rand =
      mergeAIResults lead (some a1) (some a2) rand := by
    rw [verifyLeadWithAI, h1, h2]
  refine ⟨?_, ?_, ?_, ?_, ?_, ?_, ?_, ?_, ?_⟩
  · intro h
    rw [hv]
    show jsOr2 a1.ownerName (jsOr2 a2.ownerName lead.ownerName) = a1.ownerName
    exact jsOr2_of_truthy _ h
  · intro h h2t
    rw [hv]
    show jsOr2 a1.ownerName (jsOr2 a2.ownerName lead.ownerName) = a2.ownerName
    rw [jsOr2_of_falsy _ h, jsOr2_of_truthy _ h2t]
  · intro s hs hne
    rw [hv]
    show jsOrVal a1.industry (jsOrVal a2.industry lead.industry) = s
    exact jsOrVal_of_truthy _ hs hne
  · intro h s hs hne
    rw [hv]
    show jsOrVal a1.industry (jsOrVal a2.industry lead.industry) = s
    rw [jsOrVal_of_falsy _ h]
    exact jsOrVal_of_truthy _ hs hne
  · intro h
    rw [hv]
    show jsOr2 a1.employeeCount a2.employeeCount = a1.employeeCount
    exact jsOr2_of_truthy _ h
  · intro h
    rw [hv]
    show jsOr2 a1.employeeCount a2.employeeCount = a2.employeeCount
    exact jsOr2_of_falsy _ h
  · intro h
    rw [hv]
    show jsOr2 a1.revenue a2.revenue = a1.revenue
    exact jsOr2_of_truthy _ h
  · intro h
    rw [hv]
    show jsOr2 a1.revenue a2.revenue = a2.revenue
    exact jsOr2_of_falsy _ h
  · intro d1 d2 hd1 hd2
    rw [hv]
    show some ("Claude (Primary): " ++ jsStr a1.businessDetails ++
      "\nChatGPT (Secondary): " ++ jsStr a2.businessDetails) = _
    rw [hd1, hd2]
    show some ("Claude (Primary): " ++ d1 ++ "\nChatGPT (Secondary): " ++ d2) = _
    rw [String.append_assoc, String.append_assoc]

/-- Witness for C8: primary says "Jane Doe", secondary says "J. Doe";
the merged lead keeps "Jane Doe" and concatenates both narratives. -/
theorem both_ai_merge_witness :
    (verifyLeadWithAI sampleLead "both" (some "k1") (some "k2") (CallOutcome.ok resJane)
      (CallOutcome.ok resJDoe) zeroRand).ownerName = some "Jane Doe" ∧
    (verifyLeadWithAI sampleLead "both" (some "k1") (some "k2") (CallOutcome.ok resJane)
      (CallOutcome.ok resJDoe) zeroRand).businessDetails =
      some ("Claude (Primary): " ++ "Primary narrative" ++
        "\nChatGPT (Secondary): " ++ "Secondary narrative") :=
  ⟨(both_ai_merge sampleLead "both" (some "k1") (some "k2") (CallOutcome.ok resJane)
      (CallOutcome.ok resJDoe) zeroRand _ _ rfl rfl).1 (by decide),
   (both_ai_merge sampleLead "both" (some "k1") (some "k2") (CallOutcome.ok resJane)
      (CallOutcome.ok resJDoe) zeroRand _ _ rfl rfl).2.2.2.2.2.2.2.2
     "Primary narrative" "Secondary narrative" rfl rfl⟩

theorem mem_dedupGo {l : Lead} : ∀ (rs : List Lead) (seen : List String),
    l ∈ dedupGo seen rs → ∃ s, l.placeId = some s ∧ ¬ s = "" ∧ ¬ s ∈ seen := by
  intro rs
  induction rs with
  | nil =>
    intro seen h
    simp [dedupGo] at h
  | cons r rest ih =>
    intro seen h
    cases hp : r.placeId with
    | none =>
      simp only [dedupGo, hp] at h
      exact ih seen h
    | some s =>
      simp only [dedupGo, hp] at h
      by_cases hc : s ≠ "" ∧ ¬ s ∈ seen
      · rw [if_pos hc] at h
        rcases List.mem_cons.mp h with h1 | h1
        · subst h1
          exact ⟨s, hp, hc.1, hc.2⟩
        · rcases ih (s :: seen) h1 with ⟨s', hs', hne, hnotin⟩
          exact ⟨s', hs', hne, fun hin => hnotin (List.mem_cons_of_mem _ hin)⟩
      · rw [if_neg hc] at h
        exact ih seen h

theorem nodup_dedupGo : ∀ (rs : List Lead) (seen : List String),
    ((dedupGo seen rs).map Lead.placeId).Nodup := by
  intro rs
  induction rs with
  | nil =>
    intro seen
    simp [dedupGo]
  | cons r rest ih =>
    intro seen
    cases hp : r.placeId with
    | none =>
      simp only [dedupGo, hp]
      exact ih seen
    | some s =>
      simp only [dedupGo, hp]
      by_cases hc : s ≠ "" ∧ ¬ s ∈ seen
      · rw [if_pos hc]
        simp only [List.map_cons, List.nodup_cons]
        refine ⟨?_, ih (s :: seen)⟩
        intro hmem
        rcases List.mem_map.mp hmem with ⟨l, hl, hplace⟩
        rcases mem_dedupGo rest (s :: seen) hl with ⟨s', hs', _, hnotin⟩
        rw [hs', hp] at hplace
        have hss : s' = s := by simpa using hplace
        exact hnotin (hss ▸ List.mem_cons_self s seen)
      · rw [if_neg hc]
        exact ih seen

theorem find_dedupGo {l : Lead} : ∀ (rs : List Lead) (seen : List String),
    l ∈ dedupGo seen rs →
    rs.find? (fun x => decide (x.placeId = l.placeId)) = some l := by
  intro rs
  induction rs with
  | nil =>
    intro seen h
    simp [dedupGo] at h
  | cons r rest ih =>
    intro seen h
    cases hp : r.placeId with
    | none =>
      simp only [dedupGo, hp] at h
      rcases mem_dedupGo rest seen h with ⟨s', hs', _, _⟩
      simp only [List.find?]
      rw [show decide (r.placeId = l.placeId) = false from by simp [hp, hs']]
      exact ih seen h
    | some s =>
      simp only [dedupGo, hp] at h
      by_cases hc : s ≠ "" ∧ ¬ s ∈ seen
      · rw [if_pos hc] at h
        rcases List.mem_cons.mp h with h1 | h1
        · subst h1
          simp only [List.find?]
          rfl
        · rcases mem_dedupGo rest (s :: seen) h1 with ⟨s', hs', _, hnotin⟩
          have hne : ¬ s = s' := fun he => hnotin (he ▸ List.mem_cons_self s seen)
          simp only [List.find?]
          rw [show decide (r.placeId = l.placeId) = false from by simp [hp, hs', hne]]
          exact ih (s :: seen) h1
      · rw [if_neg hc] at h
        rcases mem_dedupGo rest seen h with ⟨s', hs', hne', hnotin'⟩
        have hne : ¬ s = s' := by
          intro he
          subst he
          exact hc ⟨hne', hnotin'⟩
        simp only [List.find?]
        rw [show decide (r.placeId = l.placeId) = false from by simp [hp, hs', hne]]
        exact ih seen h

/-- C4: the final multipolygon discovery list is truncated to at most
maxLeads, contains each placeId at most once, and every kept lead is
the earliest occurrence of its placeId in the concatenated per-polygon
results. -/
theorem area_dedup : ∀ (searchPolygon : List Coord → ℕ → List Lead)
    (polys : List (List Coord)) (maxLeads : ℕ),
    (scrapeAreaMulti searchPolygon polys maxLeads).length ≤ maxLeads ∧
    ((scrapeAreaMulti searchPolygon polys maxLeads).map Lead.placeId).Nodup ∧
    (∀ l, l ∈ scrapeAreaMulti searchPolygon polys maxLeads →
      (allPolygonResults searchPolygon polys maxLeads).find?
        (fun x => decide (x.placeId = l.placeId)) = some l) := by
  intro f polys n
  refine ⟨?_, ?_, ?_⟩
  · exact List.length_take_le _ _
  · have h := nodup_dedupGo (allPolygonResults f polys n) []
    have hs : (scrapeAreaMulti f polys n).Sublist (dedupGo [] (allPolygonResults f polys n)) :=
      List.take_sublist _ _
    exact List.Nodup.sublist (hs.map Lead.placeId) h
  · intro l hl
    have hm : l ∈ dedupGo [] (allPolygonResults f polys n) := List.mem_of_mem_take hl
    exact find_dedupGo _ [] hm

/-- A constant polygon-search stub (ignores the polygon and the quota). -/
def wSearch : List Coord → ℕ → List Lead := fun _ _ => [leadA, leadA2, leadB]

/-- Witness for C4 on a two-polygon area whose search results share
placeIds. -/
theorem area_dedup_witness :
    (allPolygonResults wSearch [csSample, csSample] 4).find?
      (fun x => decide (x.placeId = leadA.placeId)) = some leadA :=
  (area_dedup wSearch [csSample, csSample] 4).2.2 leadA (by decide)

theorem dedupGo_skip {l : Lead} (h : truthyO l.placeId = false) :
    ∀ (rs : List Lead) (seen : List String) (rs2 : List Lead),
    dedupGo seen (rs ++ l :: rs2) = dedupGo seen (rs ++ rs2) := by
  intro rs
  induction rs with
  | nil =>
    intro seen rs2
    simp only [List.nil_append]
    cases hp : l.placeId with
    | none => simp only [dedupGo, hp]
    | some s =>
      have hs : s = "" := by
        rw [hp] at h
        simpa [truthyO] using h
      subst hs
      simp only [dedupGo, hp]
      rw [if_neg]
      simp
  | cons x rest ih =>
    intro seen rs2
    simp only [List.cons_append]
    cases hp : x.placeId with
    | none =>
      simp only [dedupGo, hp]
      exact ih seen rs2
    | some s =>
      simp only [dedupGo, hp]
      by_cases hc : s ≠ "" ∧ ¬ s ∈ seen
      · rw [if_pos hc, if_pos hc, ih (s :: seen) rs2]
      · rw [if_neg hc, if_neg hc]
        exact ih seen rs2

/-- C10: every lead in the deduplicated multipolygon result has a truthy
placeId, and a concatenated result lacking one is silently dropped: the
final list is unchanged by its removal, whatever the requested total. -/
theorem placeid_required :
    (∀ (rs : List Lead) (n : ℕ) (l : Lead),
      l ∈ dedupAndLimit rs n → truthyO l.placeId = true) ∧
    (∀ (rs rs2 : List Lead) (n : ℕ) (l : Lead), truthyO l.placeId = false →
      dedupAndLimit (rs ++ l :: rs2) n = dedupAndLimit (rs ++ rs2) n) := by
  constructor
  · intro rs n l hl
    have hm : l ∈ dedupGo [] rs := List.mem_of_mem_take hl
    rcases mem_dedupGo rs [] hm with ⟨s, hs, hne, _⟩
    simp [truthyO, hs, hne]
  · intro rs rs2 n l h
    unfold dedupAndLimit
    rw [dedupGo_skip h rs [] rs2]

/-- Witness for C10: a lead without placeId is dropped from the dedup
output even though the requested total is not yet reached. -/
theorem placeid_required_witness :
    truthyO leadA.placeId = true ∧
    dedupAndLimit ([leadA] ++ leadNoPid :: [leadB]) 5 = dedupAndLimit ([leadA] ++ [leadB]) 5 :=
  ⟨placeid_required.1 [leadA] 5 leadA (by decide),
   placeid_required.2 [leadA] [leadB] 5 leadNoPid (by decide)⟩

theorem countRequests_fetchPages (provider : ℕ → PageOutcome) (maxLeads : ℕ) :
    ∀ (fuel pageIdx : ℕ) (token : Option String) (acc : List Place),
    countRequests (fetchPages provider maxLeads fuel pageIdx token acc).1 ≤ fuel := by
  intro fuel
  induction fuel with
  | zero =>
    intro pageIdx token acc
    simp [fetchPages, countRequests]
  | succ fuel ih =>
    intro pageIdx token acc
    cases hpo : provider pageIdx with
    | thrown msg =>
      simp [fetchPages, hpo, countRequests]
    | response resp =>
      simp only [fetchPages, hpo]
      split_ifs with h1 h2 h3 h4 h5
      · simp [countRequests]
      · simp [countRequests]
      · simp [countRequests]
      · simp [countRequests]
      · simp [countRequests]
      · cases htok : resp.nextPageToken with
        | none => simp [countRequests]
        | some t =>
          simp only [countRequests]
          have := ih (pageIdx + 1) (some t) (acc ++ resp.results)
          omega

theorem delayedTokens_fetchPages (provider : ℕ → PageOutcome) (maxLeads : ℕ) :
    ∀ (fuel pageIdx : ℕ) (token : Option String) (acc : List Place),
    delayedTokens
      (Event.delayEv 2000 :: (fetchPages provider maxLeads fuel pageIdx token acc).1) = true ∧
    (token = none →
      delayedTokens (fetchPages provider maxLeads fuel pageIdx token acc).1 = true) := by
  intro fuel
  induction fuel with
  | zero =>
    intro pageIdx token acc
    constructor
    · simp [fetchPages, delayedTokens]
    · intro h
      simp [fetchPages, delayedTokens]
  | succ fuel ih =>
    intro pageIdx token acc
    cases hpo : provider pageIdx with
    | thrown msg =>
      constructor
      · cases token <;> simp [fetchPages, hpo, delayedTokens]
      · intro h
        subst h
        simp [fetchPages, hpo, delayedTokens]
    | response resp =>
      simp only [fetchPages, hpo]
      split_ifs with h1 h2 h3 h4 h5
      · cases token <;> simp [delayedTokens]
      · cases token <;> simp [delayedTokens]
      · cases token <;> simp [delayedTokens]
      · cases token <;> simp [delayedTokens]
      · cases token <;> simp [delayedTokens]
      · cases htok : resp.nextPageToken with
        | none => cases token <;> simp [delayedTokens]
        | some t =>
          have hrec := ih (pageIdx + 1) (some t) (acc ++ resp.results)
          constructor
          · cases token <;> simp [delayedTokens, hrec.1]
          · intro h
            subst h
            simp [delayedTokens, hrec.1]

theorem fetchPages_stop (provider : ℕ → PageOutcome) (maxLeads : ℕ)
    (fuel pageIdx : ℕ) (token : Option String) (acc : List Place) (resp : PageResponse)
    (hpo : provider pageIdx = PageOutcome.response resp)
    (hst : resp.status = "OK")
    (hne : resp.results ≠ [])
    (hfull : maxLeads ≤ acc.length + resp.results.length) :
    (fetchPages provider maxLeads (fuel + 1) pageIdx token acc).1 = [Event.request token] := by
  have hb : badStatus resp = false := by
    simp [badStatus, hst]
  simp [fetchPages, hpo, hb, hne, List.length_append, hfull]

/-- C9: the pagination loop issues at most 3 page requests, every
request consuming a continuation token is immediately preceded by a
2000 ms delay, and once a page brings the collected raw candidates up
to maxLeads the loop issues no further request (exactly the one request
for that page is emitted by the remaining loop). -/
theorem pagination_discipline : ∀ (provider : ℕ → PageOutcome) (maxLeads : ℕ),
    countRequests (scrapeTrace provider maxLeads) ≤ 3 ∧
    delayedTokens (scrapeTrace provider maxLeads) = true ∧
    (∀ (fuel pageIdx : ℕ) (token : Option String) (acc : List Place) (resp : PageResponse),
      provider pageIdx = PageOutcome.response resp →
      resp.status = "OK" → resp.results ≠ [] →
      maxLeads ≤ acc.length + resp.results.length →
      countRequests (fetchPages provider maxLeads (fuel + 1) pageIdx token acc).1 = 1) := by
  intro provider maxLeads
  refine ⟨?_, ?_, ?_⟩
  · exact countRequests_fetchPages provider maxLeads maxPages 0 none []
  · exact (delayedTokens_fetchPages provider maxLeads maxPages 0 none []).2 rfl
  · intro fuel pageIdx token acc resp hpo h1 h2 h3
    rw [fetchPages_stop provider maxLeads fuel pageIdx token acc resp hpo h1 h2 h3]
    rfl

/-- Witness for C9 on a concrete provider where the first page already
fills the quota. -/
theorem pagination_discipline_witness :
    countRequests (scrapeTrace sampleProvider 1) ≤ 3 ∧
    delayedTokens (scrapeTrace sampleProvider 1) = true ∧
    countRequests (fetchPages sampleProvider 1 1 0 none []).1 = 1 :=
  ⟨(pagination_discipline sampleProvider 1).1,
   (pagination_discipline sampleProvider 1).2.1,
   (pagination_discipline sampleProvider 1).2.2 0 0 none [] pageOkOne rfl
     (by decide) (by decide) (by decide)⟩

theorem fetchPages_ok_of_ne (provider : ℕ → PageOutcome) (maxLeads : ℕ)
    (hnt : ∀ n, isResponse (provider n) = true) :
    ∀ (fuel pageIdx : ℕ) (token : Option String) (acc : List Place), acc ≠ [] →
    isErr (fetchPages provider maxLeads fuel pageIdx token acc).2 = false := by
  intro fuel
  induction fuel with
  | zero =>
    intro pageIdx token acc hne
    simp [fetchPages, isErr]
  | succ fuel ih =>
    intro pageIdx token acc hne
    cases hpo : provider pageIdx with
    | thrown msg =>
      have := hnt pageIdx
      rw [hpo] at this
      simp [isResponse] at this
    | response resp =>
      simp only [fetchPages, hpo]
      split_ifs with h1 h2 h3 h4 h5
      · exact absurd (List.isEmpty_iff.mp h2) hne
      · simp [isErr]
      · simp [isErr]
      · simp [isErr]
      · simp [isErr]
      · cases htok : resp.nextPageToken with
        | none => simp [isErr]
        | some t =>
          simp only []
          exact ih (pageIdx + 1) (some t) (acc ++ resp.results) (by simp [hne])

theorem fetchPages_first_err (provider : ℕ → PageOutcome) (maxLeads : ℕ)
    (r0 : PageResponse) (h0 : provider 0 = PageOutcome.response r0)
    (hnt : ∀ n, isResponse (provider n) = true) :
    ∀ fuel : ℕ,
    isErr (fetchPages provider maxLeads (fuel + 1) 0 none []).2 = badStatus r0 := by
  intro fuel
  by_cases h1 : badStatus r0 = true
  · simp [fetchPages, h0, h1, isErr]
  · have hb : badStatus r0 = false := by simpa using h1
    by_cases h3 : r0.results.isEmpty = true
    · simp [fetchPages, h0, hb, h3, isErr]
    · have hie : r0.results.isEmpty = false := by simpa using h3
      have hres : r0.results ≠ [] := by simpa [List.isEmpty_iff] using h3
      by_cases h4 : maxLeads ≤ r0.results.length
      · simp [fetchPages, h0, hb, hie, h4, isErr]
      · cases htok : r0.nextPageToken with
        | none => simp [fetchPages, h0, hb, hie, h4, htok, isErr]
        | some t =>
          have hrec := fetchPages_ok_of_ne provider maxLeads hnt fuel (0 + 1) (some t)
            ([] ++ r0.results) (by simp [hres])
          simp [fetchPages, h0, hb, hie, h4, htok, isErr, maxPages] at hrec ⊢
          simp [hrec]

/-- C7 counterexample: the credential is configured and the first page
is collected successfully (status OK, one result), but the second page
request throws (axios rejection, uncaught inside the loop), and the
whole call fails - neither of the claim's failure conditions holds and
the partial set is not returned, refuting the claim's only-if and its
graceful-degradation reading. -/
theorem search_error_contract_counterexample :
    throwingProvider 0 = PageOutcome.response pageOkOne ∧
    pageOkOne.status = "OK" ∧ pageOkOne.results ≠ [] ∧
    throwingProvider 1 = PageOutcome.thrown "Network Error" ∧
    isErr (scrapeGoogleMaps (some "gk") throwingProvider noDetails 5) = true := by
  refine ⟨rfl, rfl, by decide, rfl, by decide⟩

/-- C7 (amended): scrapeGoogleMaps throws exactly when the credential is
missing or empty, when a page request itself throws (a transport-level
axios rejection, at any point - even after pages were collected), or
when the first page reports a status that is neither OK nor
ZERO_RESULTS; when every request returns a response body, the original
characterization holds, and a bad status arriving after at least one
collected page still degrades gracefully, returning the leads built
from the pages already collected. -/
theorem search_error_contract : ∀ (apiKey : Option String) (provider : ℕ → PageOutcome)
    (dp : String → Option PlaceDetails) (maxLeads : ℕ),
    (∀ r0, (∀ n, isResponse (provider n) = true) → provider 0 = PageOutcome.response r0 →
      (isErr (scrapeGoogleMaps apiKey provider dp maxLeads) = true ↔
        (apiKey = none ∨ apiKey = some "") ∨ badStatus r0 = true)) ∧
    (∀ k msg, apiKey = some k → ¬ k = "" → provider 0 = PageOutcome.thrown msg →
      isErr (scrapeGoogleMaps apiKey provider dp maxLeads) = true) ∧
    (∀ k msg r0 tk, apiKey = some k → ¬ k = "" →
      provider 0 = PageOutcome.response r0 → r0.status = "OK" → r0.results ≠ [] →
      r0.nextPageToken = some tk → r0.results.length < maxLeads →
      provider 1 = PageOutcome.thrown msg →
      isErr (scrapeGoogleMaps apiKey provider dp maxLeads) = true) ∧
    (∀ k r0 r1, apiKey = some k → ¬ k = "" →
      provider 0 = PageOutcome.response r0 → r0.status = "OK" → r0.results ≠ [] →
      provider 1 = PageOutcome.response r1 → badStatus r1 = true →
      scrapeGoogleMaps apiKey provider dp maxLeads =
        Except.ok (processPlaces dp (r0.results.take maxLeads))) := by
  intro apiKey provider dp maxLeads
  refine ⟨?_, ?_, ?_, ?_⟩
  · intro r0 hnt h0
    by_cases hk : apiKey = none ∨ apiKey = some ""
    · simp [scrapeGoogleMaps, hk, isErr]
    · rw [scrapeGoogleMaps, if_neg hk]
      have hfe := fetchPages_first_err provider maxLeads r0 h0 hnt 2
      have hmp : maxPages = 2 + 1 := rfl
      rw [← hmp] at hfe
      cases hf : (fetchPages provider maxLeads maxPages 0 none []).2 with
      | error e =>
        rw [hf] at hfe
        simp only [isErr] at hfe
        simp [isErr, hk, ← hfe]
      | ok allPlaces =>
        rw [hf] at hfe
        simp only [isErr] at hfe
        by_cases hemp : allPlaces.isEmpty <;> simp [hemp, isErr, hk, ← hfe]
  · intro k msg hk hkne h0
    subst hk
    rw [scrapeGoogleMaps, if_neg (by simp [hkne])]
    have hfe : (fetchPages provider maxLeads maxPages 0 none []).2 = Except.error msg := by
      have hmp : maxPages = 2 + 1 := rfl
      rw [hmp]
      simp [fetchPages, h0]
    rw [hfe]
    simp [isErr]
  · intro k msg r0 tk hk hkne h0 hst hres htok hlt h1
    subst hk
    rw [scrapeGoogleMaps, if_neg (by simp [hkne])]
    have hb0 : badStatus r0 = false := by simp [badStatus, hst]
    have hie : r0.results.isEmpty = false := by simpa [List.isEmpty_iff] using hres
    have h4 : ¬ maxLeads ≤ r0.results.length := Nat.not_le.mpr hlt
    have hfe : (fetchPages provider maxLeads maxPages 0 none []).2 = Except.error msg := by
      have hmp : maxPages = 2 + 1 := rfl
      rw [hmp]
      simp [fetchPages, h0, hb0, hie, h4, htok, maxPages, h1]
    rw [hfe]
    simp [isErr]
  · intro k r0 r1 hk hkne h0 hst hres h1 hbad
    subst hk
    rw [scrapeGoogleMaps, if_neg (by simp [hkne])]
    have hb0 : badStatus r0 = false := by simp [badStatus, hst]
    have hie : r0.results.isEmpty = false := by
      simpa [List.isEmpty_iff] using hres
    have hie2 : ([] ++ r0.results).isEmpty = false := by simpa using hie
    have hfe : (fetchPages provider maxLeads maxPages 0 none []).2 =
        Except.ok (r0.results) := by
      have hmp : maxPages = 2 + 1 := rfl
      rw [hmp]
      by_cases h4 : maxLeads ≤ r0.results.length
      · simp [fetchPages, h0, hb0, hie, h4]
      · cases htok : r0.nextPageToken with
        | none => simp [fetchPages, h0, hb0, hie, h4, htok, maxPages]
        | some t => simp [fetchPages, h0, hb0, hie, hie2, h4, htok, maxPages, h1, hbad]
    rw [hfe]
    simp [isErr, hie]

/-- Witness for C7 (amended) on a provider that reports a quota error
in the second page's response body. -/
theorem search_error_contract_witness :
    scrapeGoogleMaps (some "gk") degradingProvider noDetails 5 =
      Except.ok (processPlaces noDetails (pageOkTwo.results.take 5)) :=
  (search_error_contract (some "gk") degradingProvider noDetails 5).2.2.2 "gk"
    pageOkTwo pageQuotaErr rfl (by decide) rfl (by decide) (by decide) rfl (by decide)
